import Mathlib

/-!
Verification development for the Plane webhook notification bot
(`plane/utils.py` and `plane/plugin.py`).

The Python payloads are JSON-like dictionaries; we embed them as the
inductive `Json` below.  Machine bytes are modelled as `Nat` values < 256,
32-bit words as `Nat` values reduced modulo `2 ^ 32`.  Every Python
function of the core is translated into an executable Lean definition of
the same name (module-level snake_case names kept verbatim where Lean
allows it).
-/

/-- JSON value tree, as produced by Python's `json.loads`.
Numbers are modelled as integers (no claim touches float payloads). -/
inductive Json where
  | null : Json
  | bool (b : Bool) : Json
  | num (n : Int) : Json
  | str (s : String) : Json
  | arr (xs : List Json) : Json
  | obj (fields : List (String × Json)) : Json
deriving Repr, Inhabited

/-- The two runtime kinds the source ever passes as `expected_type`
(`str` and `list` in `utils.py`). -/
inductive JKind where
  | str : JKind
  | list : JKind
deriving DecidableEq, Repr

/-- `isinstance(value, expected_type)` for an optional `expected_type`:
`none` models Python's `expected_type is None` (no check). -/
def kindMatches : Option JKind → Json → Bool
  | none, _ => true
  | some JKind.str, Json.str _ => true
  | some JKind.list, Json.arr _ => true
  | some _, _ => false

mutual

/-- Python `str(x)` on a JSON-parsed value (`utils.py` uses it on assignee
entries).  Containers render through `pyRepr`; string escaping inside
`repr` is not modelled (no claim evaluates `str` on a container). -/
def pyStr : Json → String
  | Json.null => "None"
  | Json.bool true => "True"
  | Json.bool false => "False"
  | Json.num n => toString n
  | Json.str s => s
  | Json.arr xs => "[" ++ pyReprList xs ++ "]"
  | Json.obj fs => "\x7b" ++ pyReprFields fs ++ "\x7d"

def pyRepr : Json → String
  | Json.null => "None"
  | Json.bool true => "True"
  | Json.bool false => "False"
  | Json.num n => toString n
  | Json.str s => String.singleton (Char.ofNat 39) ++ s ++ String.singleton (Char.ofNat 39)
  | Json.arr xs => "[" ++ pyReprList xs ++ "]"
  | Json.obj fs => "\x7b" ++ pyReprFields fs ++ "\x7d"

def pyReprList : List Json → String
  | [] => ""
  | [x] => pyRepr x
  | x :: y :: rest => pyRepr x ++ ", " ++ pyReprList (y :: rest)

def pyReprFields : List (String × Json) → String
  | [] => ""
  | [(k, v)] => String.singleton (Char.ofNat 39) ++ k ++ String.singleton (Char.ofNat 39) ++ ": " ++ pyRepr v
  | (k, v) :: f :: rest =>
    String.singleton (Char.ofNat 39) ++ k ++ String.singleton (Char.ofNat 39) ++ ": " ++ pyRepr v
      ++ ", " ++ pyReprFields (f :: rest)

end

/-- Python `str.isspace` on the ASCII whitespace characters that
`str.strip()` removes (space, tab, newline, carriage return, vertical
tab, form feed). -/
def pyIsSpace (c : Char) : Bool :=
  c = ' ' || c = '\t' || c = '\n' || c = '\r' || c = Char.ofNat 11 || c = Char.ofNat 12

/-- Python `s.strip()`: drop whitespace from both ends. -/
def pyStrip (s : String) : String :=
  String.mk (((s.data.dropWhile pyIsSpace).reverse.dropWhile pyIsSpace).reverse)

/-- ASCII lower-casing of one character. -/
def pyLowerChar (c : Char) : Char :=
  if 'A' ≤ c ∧ c ≤ 'Z' then Char.ofNat (c.toNat + 32) else c

/-- Python `s.lower()` (the field names involved are ASCII). -/
def pyLower (s : String) : String := String.mk (s.data.map pyLowerChar)

/-- Helper for `pySplitComma`: `cur` holds the reversed pending segment. -/
def splitCommaChars : List Char → List Char → List String
  | cur, [] => [String.mk cur.reverse]
  | cur, c :: rest =>
    if c = ',' then String.mk cur.reverse :: splitCommaChars [] rest
    else splitCommaChars (c :: cur) rest

/-- Python `s.split(",")`; in particular `"".split(",") == [""]`. -/
def pySplitComma (s : String) : List String := splitCommaChars [] s.data

/-- Python `", ".join(xs)`. -/
def pyJoinComma : List String → String
  | [] => ""
  | [x] => x
  | x :: y :: rest => x ++ ", " ++ pyJoinComma (y :: rest)

/-- Python truthy `x or d` on an `Optional[str]`: `None` and the empty
string both fall back to the default. -/
def pyOr (o : Option String) (d : String) : String :=
  match o with
  | some s => if s = "" then d else s
  | none => d

/-- Python f-string interpolation of an `Optional[str]` value:
`None` renders as the literal text `"None"`. -/
def fmtOpt (o : Option String) : String :=
  match o with
  | some s => s
  | none => "None"

/-- `utils._get_nested_value`: walk `path` through nested dicts; return
`default` when an intermediate node is not a dict, a key is missing, or
the final value fails the `isinstance` check against `expected_type`. -/
def _get_nested_value : Json → List String → Option JKind → Option Json → Option Json
  | current, [], expected_type, default =>
    if kindMatches expected_type current = true then some current else default
  | current, key :: rest, expected_type, default =>
    match current with
    | Json.obj fields =>
      match fields.lookup key with
      | some next => _get_nested_value next rest expected_type default
      | none => default
    | _ => default

/-- `utils.get_actor_value_from_payload`: `activity.actor.<key>`, string-typed. -/
def get_actor_value_from_payload (payload : Json) (key : String) : Option String :=
  match _get_nested_value payload ["activity", "actor", key] (some JKind.str) none with
  | some (Json.str s) => some s
  | _ => none

/-- `utils.get_activity_value_from_payload`: `activity.<key>`, string-typed. -/
def get_activity_value_from_payload (payload : Json) (key : String) : Option String :=
  match _get_nested_value payload ["activity", key] (some JKind.str) none with
  | some (Json.str s) => some s
  | _ => none

/-- `utils.get_data_value_from_payload`: `data.<key>`, string-typed. -/
def get_data_value_from_payload (payload : Json) (key : String) : Option String :=
  match _get_nested_value payload ["data", key] (some JKind.str) none with
  | some (Json.str s) => some s
  | _ => none

/-- `utils.get_assignee_name_list_from_payload`: collect
`str(a["display_name"])` over the dict entries of `data.assignees` that
carry a `display_name` key; everything else is skipped. -/
def get_assignee_name_list_from_payload (payload : Json) : List String :=
  let assignees_raw :=
    match _get_nested_value payload ["data", "assignees"] (some JKind.list) (some (Json.arr [])) with
    | some (Json.arr xs) => xs
    | _ => []
  assignees_raw.filterMap fun assignee =>
    match assignee with
    | Json.obj fields =>
      match fields.lookup "display_name" with
      | some v => some (pyStr v)
      | none => none
    | _ => none

/-- `utils._get_assignee_id_list_from_payload`: same pattern keyed on `id`. -/
def _get_assignee_id_list_from_payload (payload : Json) : List String :=
  let assignees_raw :=
    match _get_nested_value payload ["data", "assignees"] (some JKind.list) (some (Json.arr [])) with
    | some (Json.arr xs) => xs
    | _ => []
  assignees_raw.filterMap fun assignee =>
    match assignee with
    | Json.obj fields =>
      match fields.lookup "id" with
      | some v => some (pyStr v)
      | none => none
    | _ => none

/-- `utils.is_actor_sole_assignee`: actor id present, exactly one
assignee id, and that id equals the actor's
(`actor_id is not None and len(ids) == 1 and ids[0] == actor_id`). -/
def is_actor_sole_assignee (payload : Json) : Bool :=
  let assignee_ids := _get_assignee_id_list_from_payload payload
  match get_actor_value_from_payload payload "id" with
  | none => false
  | some actor_id =>
    match assignee_ids with
    | [x] => x == actor_id
    | _ => false

/-- `utils.was_non_actor_sole_assignee_removed`.  `old_value` comes from
the string-typed activity accessor, so `None or []` yields `[]` and the
string branch splits on commas, trims, and drops empties; the source's
`isinstance(..., list)` guard is unreachable (the accessor only returns a
string or `None`) and the final line is
`bool(actor_id and previous_assignee_id and previous_assignee_id != actor_id)`. -/
def was_non_actor_sole_assignee_removed (payload : Json) : Bool :=
  if get_activity_value_from_payload payload "field" ≠ some "assignee_ids" then false
  else if _get_assignee_id_list_from_payload payload ≠ [] then false
  else
    let previous_assignee_ids :=
      match get_activity_value_from_payload payload "old_value" with
      | some s => ((pySplitComma s).map pyStrip).filter (fun t => t ≠ "")
      | none => []
    if previous_assignee_ids.length ≠ 1 then false
    else
      let previous_assignee_id := previous_assignee_ids.headD ""
      match get_actor_value_from_payload payload "id" with
      | none => false
      | some actor_id =>
        actor_id != "" && previous_assignee_id != "" && previous_assignee_id != actor_id

/-- `utils.generate_issue_url` (an f-string over two `Optional[str]` reads). -/
def generate_issue_url (payload : Json) (workspace_base_url : String) : String :=
  let project_id := get_data_value_from_payload payload "project"
  let issue_id := get_data_value_from_payload payload "id"
  workspace_base_url ++ "/projects/" ++ fmtOpt project_id ++ "/issues/" ++ fmtOpt issue_id

/-- `utils.generate_comment_url`: `issue_id` is read from `data.issue`
and `comment_id` from `data.id`. -/
def generate_comment_url (payload : Json) (workspace_base_url : String) : String :=
  let project_id := get_data_value_from_payload payload "project"
  let issue_id := get_data_value_from_payload payload "issue"
  let comment_id := get_data_value_from_payload payload "id"
  workspace_base_url ++ "/projects/" ++ fmtOpt project_id ++ "/issues/" ++ fmtOpt issue_id
    ++ "/#comment-" ++ fmtOpt comment_id

/-! ### Signature verification (`hmac`/`hashlib` as used by `utils.verify_plane_signature`)

Bytes are `Nat` values below 256, 32-bit words are `Nat` values reduced
modulo `2 ^ 32`.  `sha256` follows FIPS 180-4 exactly as `hashlib.sha256`
computes it; `hmacSha256` is RFC 2104 with the 64-byte block size that
`hmac.new(..., digestmod=hashlib.sha256)` uses. -/

/-- Reduce to a 32-bit word. -/
def w32 (n : Nat) : Nat := n % 4294967296

/-- 32-bit modular addition. -/
def add32 (a b : Nat) : Nat := (a + b) % 4294967296

/-- 32-bit right rotation (inputs assumed < 2 ^ 32). -/
def rotr32 (x n : Nat) : Nat := ((x >>> n) ||| (x <<< (32 - n))) % 4294967296

/-- Bitwise complement on 32 bits. -/
def not32 (x : Nat) : Nat := x ^^^ 4294967295

def sha256Ch (x y z : Nat) : Nat := (x &&& y) ^^^ (not32 x &&& z)

def sha256Maj (x y z : Nat) : Nat := (x &&& y) ^^^ (x &&& z) ^^^ (y &&& z)

def bigSigma0 (x : Nat) : Nat := rotr32 x 2 ^^^ rotr32 x 13 ^^^ rotr32 x 22

def bigSigma1 (x : Nat) : Nat := rotr32 x 6 ^^^ rotr32 x 11 ^^^ rotr32 x 25

def smallSigma0 (x : Nat) : Nat := rotr32 x 7 ^^^ rotr32 x 18 ^^^ (x >>> 3)

def smallSigma1 (x : Nat) : Nat := rotr32 x 17 ^^^ rotr32 x 19 ^^^ (x >>> 10)

/-- The 64 SHA-256 round constants. -/
def sha256K : List Nat :=
  [1116352408, 1899447441, 3049323471, 3921009573,
   961987163, 1508970993, 2453635748, 2870763221,
   3624381080, 310598401, 607225278, 1426881987,
   1925078388, 2162078206, 2614888103, 3248222580,
   3835390401, 4022224774, 264347078, 604807628,
   770255983, 1249150122, 1555081692, 1996064986,
   2554220882, 2821834349, 2952996808, 3210313671,
   3336571891, 3584528711, 113926993, 338241895,
   666307205, 773529912, 1294757372, 1396182291,
   1695183700, 1986661051, 2177026350, 2456956037,
   2730485921, 2820302411, 3259730800, 3345764771,
   3516065817, 3600352804, 4094571909, 275423344,
   430227734, 506948616, 659060556, 883997877,
   958139571, 1322822218, 1537002063, 1747873779,
   1955562222, 2024104815, 2227730452, 2361852424,
   2428436474, 2756734187, 3204031479, 3329325298]

/-- Working state: eight 32-bit hash words. -/
structure Hash8 where
  a : Nat
  b : Nat
  c : Nat
  d : Nat
  e : Nat
  f : Nat
  g : Nat
  h : Nat
deriving Repr, DecidableEq

/-- SHA-256 initial hash value. -/
def sha256Init : Hash8 :=
  ⟨1779033703, 3144134277, 1013904242, 2773480762, 1359893119, 2600822924, 528734635, 1541459225⟩

/-- SHA-256 padding: append `0x80`, zero bytes to 56 mod 64, then the
message bit length as 8 big-endian bytes. -/
def sha256Pad (msg : List Nat) : List Nat :=
  let bitLen := 8 * msg.length
  let zeros := (119 - msg.length % 64) % 64
  msg ++ [0x80] ++ List.replicate zeros 0 ++
    [(bitLen >>> 56) % 256, (bitLen >>> 48) % 256, (bitLen >>> 40) % 256, (bitLen >>> 32) % 256,
     (bitLen >>> 24) % 256, (bitLen >>> 16) % 256, (bitLen >>> 8) % 256, bitLen % 256]

/-- Split a byte list into 64-byte chunks (structural recursion on a
fuel argument so the kernel can evaluate it; the fuel `l.length` never
runs out because each step consumes at least one element). -/
def chunks64Fuel : Nat → List Nat → List (List Nat)
  | _, [] => []
  | 0, l => [l]
  | fuel + 1, x :: xs => ((x :: xs).take 64) :: chunks64Fuel fuel ((x :: xs).drop 64)

/-- Split a byte list into 64-byte chunks. -/
def chunks64 (l : List Nat) : List (List Nat) := chunks64Fuel l.length l

/-- Big-endian 4-byte groups to 32-bit words. -/
def bytesToWords : List Nat → List Nat
  | b0 :: b1 :: b2 :: b3 :: rest =>
    (b0 * 16777216 + b1 * 65536 + b2 * 256 + b3) :: bytesToWords rest
  | _ => []

/-- One message-schedule extension step appends
`σ1(w[t-2]) + w[t-7] + σ0(w[t-15]) + w[t-16]`. -/
def scheduleStep (ws : List Nat) : List Nat :=
  ws ++ [add32 (add32 (smallSigma1 (ws.getD (ws.length - 2) 0)) (ws.getD (ws.length - 7) 0))
              (add32 (smallSigma0 (ws.getD (ws.length - 15) 0)) (ws.getD (ws.length - 16) 0))]

/-- Extend the 16 block words to the 64-entry message schedule. -/
def fullSchedule (block16 : List Nat) : List Nat :=
  (List.range 48).foldl (fun ws _ => scheduleStep ws) block16

/-- One SHA-256 round. -/
def sha256Round (st : Hash8) (k w : Nat) : Hash8 :=
  let t1 := add32 st.h (add32 (bigSigma1 st.e) (add32 (sha256Ch st.e st.f st.g) (add32 k w)))
  let t2 := add32 (bigSigma0 st.a) (sha256Maj st.a st.b st.c)
  ⟨add32 t1 t2, st.a, st.b, st.c, add32 st.d t1, st.e, st.f, st.g⟩

/-- Compress one 64-byte block into the running state. -/
def sha256Compress (st : Hash8) (block : List Nat) : Hash8 :=
  let ws := fullSchedule (bytesToWords block)
  let fin := (sha256K.zip ws).foldl (fun s kw => sha256Round s kw.1 kw.2) st
  ⟨add32 st.a fin.a, add32 st.b fin.b, add32 st.c fin.c, add32 st.d fin.d,
   add32 st.e fin.e, add32 st.f fin.f, add32 st.g fin.g, add32 st.h fin.h⟩

/-- A 32-bit word as 4 big-endian bytes. -/
def wordBytes (w : Nat) : List Nat :=
  [(w >>> 24) % 256, (w >>> 16) % 256, (w >>> 8) % 256, w % 256]

/-- Final state flattened to the 32 digest bytes. -/
def digestBytes (st : Hash8) : List Nat :=
  wordBytes st.a ++ wordBytes st.b ++ wordBytes st.c ++ wordBytes st.d ++
  wordBytes st.e ++ wordBytes st.f ++ wordBytes st.g ++ wordBytes st.h

/-- `hashlib.sha256(msg).digest()` over a byte list. -/
def sha256 (msg : List Nat) : List Nat :=
  digestBytes ((chunks64 (sha256Pad msg)).foldl sha256Compress sha256Init)

/-- Lowercase hex digit. -/
def hexDigitChar (n : Nat) : Char :=
  "0123456789abcdef".data.getD n '0'

/-- Each byte contributes exactly two lowercase hex characters. -/
def hexEncodeChars : List Nat → List Char
  | [] => []
  | b :: rest => hexDigitChar (b / 16) :: hexDigitChar (b % 16) :: hexEncodeChars rest

/-- `.hexdigest()`-style lowercase hex encoding of a byte list. -/
def hexEncode (l : List Nat) : String := String.mk (hexEncodeChars l)

/-- `hmac.new(key, msg, hashlib.sha256).digest()` (RFC 2104, block size 64). -/
def hmacSha256 (key msg : List Nat) : List Nat :=
  let k0 := if key.length > 64 then sha256 key else key
  let kPad := k0 ++ List.replicate (64 - k0.length) 0
  let ipadKey := kPad.map (fun b => b ^^^ 0x36)
  let opadKey := kPad.map (fun b => b ^^^ 0x5c)
  sha256 (opadKey ++ sha256 (ipadKey ++ msg))

/-- `hmac.new(key, msg, hashlib.sha256).hexdigest()`. -/
def hmacSha256Hex (key msg : List Nat) : String := hexEncode (hmacSha256 key msg)

/-- `utils.verify_plane_signature`: reject a missing or empty header
outright, otherwise compare the computed hex digest with the received
one (`hmac.compare_digest`; its constant-time execution is a property of
the runtime, equality of outcome is what is modelled). -/
def verify_plane_signature (secret : List Nat) (body : List Nat) (received_sig : Option String) : Bool :=
  match received_sig with
  | none => false
  | some s =>
    if s = "" then false
    else
      let expected_sig := hmacSha256Hex secret body
      expected_sig == s

/-! ### The plugin (`plane/plugin.py`) -/

/-- `plugin.FIELD_CHANGED_RENAMING`: static rename table for changed
field names. -/
def FIELD_CHANGED_RENAMING : List (String × String) :=
  [("target_date", "due date"), ("name", "title")]

/-- The notification configuration read by the plugin.  `secret` is kept
as the UTF-8 bytes the verifier consumes. -/
structure Config where
  room_id : String
  secret : List Nat
  workspace_url : String
  send_notification_with_no_assignees : Bool
  send_notification_when_actor_is_sole_assignee : Bool
  issue_updated_notification_fields : List String

/-- The three characters `U+00E2 U+20AC U+201D` that appear literally in
the source's issue-updated template between the issue link and the field
name. -/
def templateDash : String := String.mk [Char.ofNat 0xE2, Char.ofNat 0x20AC, Char.ofNat 0x201D]

/-- `PlaneBot.handle_issue_updated`: three suppression gates in order
(empty display-name list unless the sole-assignee-removed override or
the config flag allows it; actor sole assignee unless allowed; changed
field, stripped and lower-cased, not in the configured field list), then
the Markdown template.  The source binds the display-name list to a
variable called `assignee_ids`; the same (name) list is used here. -/
def handle_issue_updated (cfg : Config) (payload : Json) : Option String :=
  let assignee_ids := get_assignee_name_list_from_payload payload
  let assignees_empty := assignee_ids.length = 0
  let actor_is_sole_assignee := is_actor_sole_assignee payload
  let non_actor_sole_assignee_removed := was_non_actor_sole_assignee_removed payload
  let send_when_no_assignees := cfg.send_notification_with_no_assignees
  let send_when_actor_is_sole_assignee := cfg.send_notification_when_actor_is_sole_assignee
  if assignees_empty ∧ non_actor_sole_assignee_removed = false ∧ send_when_no_assignees = false then
    none
  else if actor_is_sole_assignee = true ∧ send_when_actor_is_sole_assignee = false then
    none
  else
    let field_changed_raw := pyOr (get_activity_value_from_payload payload "field") ""
    let field_changed := pyLower (pyStrip field_changed_raw)
    if field_changed ∉ cfg.issue_updated_notification_fields then
      none
    else
      let issue_title := pyOr (get_data_value_from_payload payload "name") "Untitled"
      let actor_name := pyOr (get_actor_value_from_payload payload "display_name") "Unknown user"
      let raw_field_changed := pyOr (get_activity_value_from_payload payload "field") "Unknown field"
      let display_field_changed := (FIELD_CHANGED_RENAMING.lookup raw_field_changed).getD raw_field_changed
      let old_value := pyOr (get_activity_value_from_payload payload "old_value") "None"
      let new_value := pyOr (get_activity_value_from_payload payload "new_value") "None"
      let issue_url := generate_issue_url payload cfg.workspace_url
      some ("Task: **[" ++ issue_title ++ "](" ++ issue_url ++ ")** " ++ templateDash ++ " **"
        ++ display_field_changed ++ "** updated by **" ++ actor_name ++ "**\n\n"
        ++ "- **New:** `" ++ new_value ++ "`\n"
        ++ "- **Old:** `" ++ old_value ++ "`\n")

/-- `PlaneBot.handle_issue_created`: no suppression gates. -/
def handle_issue_created (cfg : Config) (payload : Json) : String :=
  let issue_title := pyOr (get_data_value_from_payload payload "name") "Untitled"
  let actor_name := pyOr (get_actor_value_from_payload payload "display_name") "Unknown user"
  let priority := pyOr (get_data_value_from_payload payload "priority") "None"
  let target_date := pyOr (get_data_value_from_payload payload "target_date") "None"
  let assignee_names := get_assignee_name_list_from_payload payload
  let assignee_display := if assignee_names = [] then "Unassigned" else pyJoinComma assignee_names
  let issue_url := generate_issue_url payload cfg.workspace_url
  "**New task created** by **" ++ actor_name ++ "**\n\n"
    ++ "- **Title & Link:** [" ++ issue_title ++ "](" ++ issue_url ++ ")\n"
    ++ "- **Priority:** " ++ priority ++ "\n"
    ++ "- **Due date:** " ++ target_date ++ "\n"
    ++ "- **Assignees:** " ++ assignee_display ++ "\n"

/-- `PlaneBot.handle_issue_comment`. -/
def handle_issue_comment (cfg : Config) (payload : Json) : String :=
  "[Comment event](" ++ generate_comment_url payload cfg.workspace_url ++ ")"

/-- The terminal per-request outcomes of `PlaneBot.webhook`
(unauthorized = 403, bad JSON = 400, empty message = plain ok, a sent
message = ok, a delivery exception = 500). -/
inductive Outcome where
  | unauthorized : Outcome
  | badJson : Outcome
  | noMessage : Outcome
  | delivered (room msg : String) : Outcome
  | deliveryFailed (room msg : String) : Outcome
deriving DecidableEq, Repr

/-- Python `==` between a JSON value and a string literal: true exactly
when the value is that string. -/
def jsonEqStr (v : Option Json) (s : String) : Bool :=
  match v with
  | some (Json.str t) => t == s
  | _ => false

/-- `PlaneBot.webhook`.  `parse` models `json.loads` restricted to
top-level JSON objects (on a non-object document the Python handler
would fault at `payload.get`, which is outside the model), and `send`
models `client.send_markdown` returning success or failure.  The local
`message` starts out as the literal string `"test"` exactly as in the
source, and is only reassigned by the dispatch arms that run. -/
def webhook (parse : List Nat → Option (List (String × Json)))
    (send : String → String → Bool) (cfg : Config)
    (body : List Nat) (sig_header : Option String) : Outcome :=
  let received_signature := sig_header.getD ""
  if verify_plane_signature cfg.secret body (some received_signature) = false then
    Outcome.unauthorized
  else
    match parse body with
    | none => Outcome.badJson
    | some fields =>
      let payload := Json.obj fields
      let event_type := fields.lookup "event"
      let action_type := fields.lookup "action"
      let message : Option String :=
        if jsonEqStr event_type "issue" then
          let afterCreated :=
            if jsonEqStr action_type "created" then some (handle_issue_created cfg payload)
            else some "test"
          if jsonEqStr action_type "updated" then handle_issue_updated cfg payload
          else afterCreated
        else if jsonEqStr event_type "issue_comment" then
          if jsonEqStr action_type "created" then some (handle_issue_comment cfg payload)
          else some "test"
        else some "test"
      match message with
      | none => Outcome.noMessage
      | some m =>
        if m = "" then Outcome.noMessage
        else if send cfg.room_id m then Outcome.delivered cfg.room_id m
        else Outcome.deliveryFailed cfg.room_id m

/-! ### Scaffolding definitions used by the claim statements -/

/-- Independent path walk (the specification-side description of
`_get_nested_value`): descend through dict nodes only, `none` as soon as
a node is not a dict or a key is missing. -/
def resolvePath (v : Json) : List String → Option Json
  | [] => some v
  | key :: rest =>
    match v with
    | Json.obj fields =>
      match fields.lookup key with
      | some next => resolvePath next rest
      | none => none
    | _ => none

/-- Does `needle` occur as a contiguous run inside the character list? -/
def containsChars (needle : List Char) : List Char → Bool
  | [] => needle.isEmpty
  | c :: rest => needle.isPrefixOf (c :: rest) || containsChars needle rest

/-- Substring test used to state the "message contains ..." facts. -/
def strContains (hay needle : String) : Bool := containsChars needle.data hay.data

/-- Payload for the C2 counterexample: `activity.old_value` arrives as a
JSON list holding the single id `"user-42"`, the current assignee list is
empty, and the actor is a different user. -/
def c2Payload : Json := Json.obj
  [("activity", Json.obj
     [("field", Json.str "assignee_ids"),
      ("old_value", Json.arr [Json.str "user-42"]),
      ("actor", Json.obj [("id", Json.str "user-7")])]),
   ("data", Json.obj [("assignees", Json.arr [])])]

/-- Payload for the C2 amended-claim witness: the same situation with
`old_value` in comma-separated string form (with whitespace and an empty
trailing segment, exercising the trim-and-drop normalisation). -/
def c2WitnessPayload : Json := Json.obj
  [("activity", Json.obj
     [("field", Json.str "assignee_ids"),
      ("old_value", Json.str " user-42 ,"),
      ("actor", Json.obj [("id", Json.str "user-7")])]),
   ("data", Json.obj [("assignees", Json.arr [])])]

/-- Payload for C3: empty assignee list, a removed non-actor sole
assignee (`old_value = "user-42"`, actor `"user-7"`). -/
def c3Payload : Json := Json.obj
  [("activity", Json.obj
     [("field", Json.str "assignee_ids"),
      ("old_value", Json.str "user-42"),
      ("actor", Json.obj [("id", Json.str "user-7")])]),
   ("data", Json.obj [("assignees", Json.arr [])])]

/-- C3 counterexample config: notifications on no-assignee updates are
off and `issue_updated_notification_fields` does not list
`"assignee_ids"`. -/
def c3Cfg : Config := ⟨"room1", [115], "https://x", false, false, []⟩

/-- C3 witness config: same flags but `"assignee_ids"` is a configured
notification field. -/
def c3WitnessCfg : Config := ⟨"room1", [115], "https://x", false, false, ["assignee_ids"]⟩

/-- C4 witness payload: one assignee entry carrying an `id` but no
`display_name`. -/
def c4WitnessPayload : Json := Json.obj
  [("activity", Json.obj
     [("field", Json.str "priority"),
      ("actor", Json.obj [("id", Json.str "user-7")])]),
   ("data", Json.obj [("assignees", Json.arr [Json.obj [("id", Json.str "user-42")]])])]

/-- C4 witness config: both notification flags disabled. -/
def c4WitnessCfg : Config := ⟨"room1", [115], "https://x", false, false, ["priority"]⟩

/-- Scenario-B payload of the spec: an `issue`/`updated` event changing
`target_date` from `2024-01-01` to `2024-02-01`, with a non-empty
assignee list and a distinct actor. -/
def c5Payload : Json := Json.obj
  [("event", Json.str "issue"), ("action", Json.str "updated"),
   ("activity", Json.obj
     [("field", Json.str "target_date"), ("old_value", Json.str "2024-01-01"),
      ("new_value", Json.str "2024-02-01"),
      ("actor", Json.obj [("id", Json.str "actor-1"), ("display_name", Json.str "Bob")])]),
   ("data", Json.obj
     [("name", Json.str "Fix"), ("id", Json.str "ISSUE-1"), ("project", Json.str "PROJ-1"),
      ("assignees", Json.arr [Json.obj [("display_name", Json.str "Alice"), ("id", Json.str "user-9")]])])]

/-- Scenario-B config: only `target_date` updates notify. -/
def c5Cfg : Config := ⟨"room1", [115], "https://x", false, false, ["target_date"]⟩

/-- The message scenario B must produce. -/
def c5ExpectedMessage : String :=
  "Task: **[Fix](https://x/projects/PROJ-1/issues/ISSUE-1)** " ++ templateDash
    ++ " **due date** updated by **Bob**\n\n- **New:** `2024-02-01`\n- **Old:** `2024-01-01`\n"

/-- Config used for the dispatcher evaluations (C1, C9). -/
def c1Cfg : Config := ⟨"room1", [115], "https://x", false, false, []⟩

/-- C10 payload: `data = \x7bproject: "P1", issue: "I2", id: "C3"\x7d`. -/
def c10Payload : Json := Json.obj
  [("data", Json.obj [("project", Json.str "P1"), ("issue", Json.str "I2"), ("id", Json.str "C3")])]

/-! ### Helper lemmas -/

theorem hexEncodeChars_length (l : List Nat) : (hexEncodeChars l).length = 2 * l.length := by
  induction l with
  | nil => rfl
  | cons b rest ih => simp [hexEncodeChars, ih]; omega

theorem sha256_length (msg : List Nat) : (sha256 msg).length = 32 := by
  simp [sha256, digestBytes, wordBytes]

theorem hmacSha256_length (key msg : List Nat) : (hmacSha256 key msg).length = 32 :=
  sha256_length _

theorem hmacSha256Hex_ne_empty (key msg : List Nat) : hmacSha256Hex key msg ≠ "" := by
  intro h
  have h2 : (hmacSha256Hex key msg).length = 0 := by rw [h]; rfl
  rw [show hmacSha256Hex key msg = hexEncode (hmacSha256 key msg) from rfl] at h2
  rw [show (hexEncode (hmacSha256 key msg)).length = (hexEncodeChars (hmacSha256 key msg)).length from rfl] at h2
  rw [hexEncodeChars_length, hmacSha256_length] at h2
  omega

theorem is_actor_sole_assignee_of_ids_nil (p : Json)
    (h : _get_assignee_id_list_from_payload p = []) : is_actor_sole_assignee p = false := by
  unfold is_actor_sole_assignee
  cases hg : get_actor_value_from_payload p "id" <;> simp [h, hg]

theorem was_removed_false_of_ids_ne_nil (p : Json)
    (h : _get_assignee_id_list_from_payload p ≠ []) :
    was_non_actor_sole_assignee_removed p = false := by
  unfold was_non_actor_sole_assignee_removed
  by_cases h1 : get_activity_value_from_payload p "field" ≠ some "assignee_ids" <;> simp [h1, h]

theorem was_removed_true_field (p : Json) (h : was_non_actor_sole_assignee_removed p = true) :
    get_activity_value_from_payload p "field" = some "assignee_ids" := by
  by_cases hc : get_activity_value_from_payload p "field" = some "assignee_ids"
  · exact hc
  · exfalso
    unfold was_non_actor_sole_assignee_removed at h
    simp [hc] at h

theorem was_removed_true_ids (p : Json) (h : was_non_actor_sole_assignee_removed p = true) :
    _get_assignee_id_list_from_payload p = [] := by
  by_cases hc : _get_assignee_id_list_from_payload p = []
  · exact hc
  · exfalso
    unfold was_non_actor_sole_assignee_removed at h
    by_cases h1 : get_activity_value_from_payload p "field" ≠ some "assignee_ids" <;>
      simp [h1, hc] at h

/-! ### Claim theorems -/

/-- C6: `_get_nested_value` is a total function (it is defined in Lean,
so it can never raise) and it returns the `default` exactly when the
walk dies — an intermediate node is not a dict, a key along the path is
missing, or the final value's runtime kind fails the `expected_type`
check — and the value at the path otherwise. -/
theorem c6_get_nested_value_total_characterisation :
    ∀ (path : List String) (p : Json) (expected : Option JKind) (default : Option Json),
      _get_nested_value p path expected default =
        match resolvePath p path with
        | none => default
        | some v => if kindMatches expected v = true then some v else default := by
  intro path
  induction path with
  | nil => intro p e d; rfl
  | cons k rest ih =>
    intro p e d
    cases p with
    | obj fields =>
      cases hl : fields.lookup k with
      | none => simp [_get_nested_value, resolvePath, hl]
      | some v => simp [_get_nested_value, resolvePath, hl, ih v e d]
    | null => rfl
    | bool b => rfl
    | num n => rfl
    | str s => rfl
    | arr xs => rfl

/-- C7: `is_actor_sole_assignee` is true iff the actor id is present and
the assignee-id list is exactly the one-element list holding that id
(hence false with zero, two, or one non-matching assignee). -/
theorem c7_is_actor_sole_assignee_iff (p : Json) :
    is_actor_sole_assignee p = true ↔
      ∃ a, get_actor_value_from_payload p "id" = some a ∧
        _get_assignee_id_list_from_payload p = [a] := by
  have heq : is_actor_sole_assignee p =
      (match get_actor_value_from_payload p "id" with
       | none => false
       | some actor_id =>
         match _get_assignee_id_list_from_payload p with
         | [x] => x == actor_id
         | _ => false) := rfl
  rw [heq]
  cases hg : get_actor_value_from_payload p "id" with
  | none => simp
  | some a =>
    cases hl : _get_assignee_id_list_from_payload p with
    | nil => simp
    | cons x xs =>
      cases xs with
      | nil =>
        simp only [List.cons.injEq, and_true, Option.some.injEq]
        constructor
        · intro h
          exact ⟨a, rfl, beq_iff_eq.mp h⟩
        · rintro ⟨b, hb, hx⟩
          cases hb
          exact beq_iff_eq.mpr hx
      | cons y ys => simp

/-- C8: a signature computed by the verifier over the unmodified body
always verifies against itself, and a missing or empty signature header
is rejected. -/
theorem c8_verify_signature_roundtrip_and_empty (secret body : List Nat) :
    verify_plane_signature secret body (some (hmacSha256Hex secret body)) = true ∧
    verify_plane_signature secret body none = false ∧
    verify_plane_signature secret body (some "") = false := by
  refine ⟨?_, rfl, ?_⟩
  · have hne := hmacSha256Hex_ne_empty secret body
    simp [verify_plane_signature, hne]
  · simp [verify_plane_signature]

/-- C10: the comment URL is
`{workspace_url}/projects/{data.project}/issues/{data.issue}/#comment-{data.id}`,
and on `data = (project P1, issue I2, id C3)` with workspace
`https://x` it is exactly `https://x/projects/P1/issues/I2/#comment-C3`. -/
theorem c10_comment_url_format :
    (∀ (p : Json) (base : String),
      generate_comment_url p base =
        base ++ "/projects/" ++ fmtOpt (get_data_value_from_payload p "project")
          ++ "/issues/" ++ fmtOpt (get_data_value_from_payload p "issue")
          ++ "/#comment-" ++ fmtOpt (get_data_value_from_payload p "id")) ∧
    generate_comment_url c10Payload "https://x" = "https://x/projects/P1/issues/I2/#comment-C3" := by
  refine ⟨fun p base => rfl, by decide⟩

/-- C9: whenever the provided signature header (missing headers read as
the empty string, as `request.headers.get` does) fails verification, the
dispatcher answers Unauthorized no matter what the JSON parser or the
delivery collaborator would do — neither is consulted. -/
theorem c9_unauthorized_short_circuit
    (parse : List Nat → Option (List (String × Json))) (send : String → String → Bool)
    (cfg : Config) (body : List Nat) (sig_header : Option String)
    (h : verify_plane_signature cfg.secret body (some (sig_header.getD "")) = false) :
    webhook parse send cfg body sig_header = Outcome.unauthorized := by
  unfold webhook
  simp [h]

/-- Witness for C9 at a concrete input: an absent signature header fails
verification and the outcome is Unauthorized. -/
theorem c9_unauthorized_short_circuit_witness :
    verify_plane_signature c1Cfg.secret [] (some ((none : Option String).getD "")) = false ∧
    webhook (fun _ => none) (fun _ _ => false) c1Cfg [] none = Outcome.unauthorized :=
  ⟨by decide, c9_unauthorized_short_circuit (fun _ => none) (fun _ _ => false) c1Cfg [] none (by decide)⟩

/-- C2 counterexample: a payload meeting every premise of the claim with
`activity.old_value` in JSON-list form — the field is `assignee_ids`,
the current assignee-id list is empty, the old value is the list holding
the single non-empty id `user-42`, and the actor is the distinct
non-empty id `user-7` — yet the predicate returns false, because the
string-typed activity accessor rejects the list. -/
theorem c2_list_old_value_counterexample :
    get_activity_value_from_payload c2Payload "field" = some "assignee_ids" ∧
    _get_assignee_id_list_from_payload c2Payload = [] ∧
    (match resolvePath c2Payload ["activity", "old_value"] with
     | some (Json.arr [Json.str s]) => s
     | _ => "") = "user-42" ∧
    get_activity_value_from_payload c2Payload "old_value" = none ∧
    get_actor_value_from_payload c2Payload "id" = some "user-7" ∧
    was_non_actor_sole_assignee_removed c2Payload = false :=
  ⟨rfl, rfl, rfl, rfl, rfl, by decide⟩

/-- C2 amended: the predicate is true whenever the changed field is
`assignee_ids`, the current assignee-id list is empty, `old_value`
arrives as a comma-separated STRING that parses (trim each segment, drop
empties) to exactly one non-empty id, and the actor id is present,
non-empty and different from that id.  (List-valued `old_value` is
rejected by the string-typed accessor and yields false.) -/
theorem c2_sole_assignee_removed_string_form :
    ∀ (p : Json) (s prev a : String),
      get_activity_value_from_payload p "field" = some "assignee_ids" →
      _get_assignee_id_list_from_payload p = [] →
      get_activity_value_from_payload p "old_value" = some s →
      ((pySplitComma s).map pyStrip).filter (fun t => t ≠ "") = [prev] →
      get_actor_value_from_payload p "id" = some a →
      a ≠ "" → prev ≠ "" → prev ≠ a →
      was_non_actor_sole_assignee_removed p = true := by
  intro p s prev a hf hids hov hparse ha hane hprev hne
  unfold was_non_actor_sole_assignee_removed
  rw [hf, if_neg (not_not_intro rfl), hids, if_neg (not_not_intro rfl)]
  simp only [hov]
  rw [hparse]
  simp [ha, hane, hprev, hne]

/-- Witness for the amended C2 at a concrete payload whose `old_value`
string `" user-42 ,"` normalises to the single id `user-42`. -/
theorem c2_sole_assignee_removed_string_form_witness :
    was_non_actor_sole_assignee_removed c2WitnessPayload = true :=
  c2_sole_assignee_removed_string_form c2WitnessPayload " user-42 ," "user-42" "user-7"
    rfl rfl rfl (by decide) rfl (by decide) (by decide) (by decide)

/-- C3 counterexample: on a payload with empty assignees and the
sole-assignee-removed override true, a config with
`send_notification_with_no_assignees = false` whose
`issue_updated_notification_fields` is empty still yields no message —
the field-filter gate (gate 3) suppresses.  The claim's "every config"
is therefore false. -/
theorem c3_field_filter_counterexample :
    get_assignee_name_list_from_payload c3Payload = [] ∧
    was_non_actor_sole_assignee_removed c3Payload = true ∧
    c3Cfg.send_notification_with_no_assignees = false ∧
    handle_issue_updated c3Cfg c3Payload = none :=
  ⟨rfl, by decide, rfl, by decide⟩

/-- C3 amended: with empty assignees, the override true, and
`send_notification_with_no_assignees = false`, a message is produced
provided the changed field `assignee_ids` is among the configured
notification fields — the override defeats the empty-assignees gate
(gate 1), while gate 3 still applies. -/
theorem c3_override_defeats_empty_assignee_gate :
    ∀ (cfg : Config) (p : Json),
      get_assignee_name_list_from_payload p = [] →
      was_non_actor_sole_assignee_removed p = true →
      cfg.send_notification_with_no_assignees = false →
      "assignee_ids" ∈ cfg.issue_updated_notification_fields →
      ∃ m, handle_issue_updated cfg p = some m := by
  intro cfg p hnames hrem hflag hmem
  have hfield := was_removed_true_field p hrem
  have hids := was_removed_true_ids p hrem
  have hsole := is_actor_sole_assignee_of_ids_nil p hids
  have hlit : pyLower (pyStrip (pyOr (some "assignee_ids") "")) = "assignee_ids" := by decide
  unfold handle_issue_updated
  simp [hfield, hrem, hsole, hlit, hmem]

/-- Witness for the amended C3: the concrete override payload together
with a config that lists `assignee_ids` produces a message. -/
theorem c3_override_defeats_empty_assignee_gate_witness :
    ∃ m, handle_issue_updated c3WitnessCfg c3Payload = some m :=
  c3_override_defeats_empty_assignee_gate c3WitnessCfg c3Payload rfl (by decide) rfl (by decide)

/-- C4 (implicit): gate 1 of `handle_issue_updated` is evaluated on the
display-name list.  When every `data.assignees` entry is a dict with an
`id` but no `display_name`, the name list is empty while the id list is
not, and — both notification flags being irrelevant except
`send_notification_with_no_assignees = false` — the handler suppresses,
even though `is_actor_sole_assignee` / `was_non_actor_sole_assignee_removed`
consult the non-empty id list. -/
theorem c4_gate_one_uses_display_names :
    ∀ (cfg : Config) (p : Json) (xs : List Json),
      _get_nested_value p ["data", "assignees"] (some JKind.list) (some (Json.arr [])) = some (Json.arr xs) →
      xs ≠ [] →
      (∀ e ∈ xs, ∃ fields, e = Json.obj fields ∧ fields.lookup "display_name" = none ∧
        (fields.lookup "id").isSome = true) →
      cfg.send_notification_with_no_assignees = false →
      get_assignee_name_list_from_payload p = [] ∧
      _get_assignee_id_list_from_payload p ≠ [] ∧
      handle_issue_updated cfg p = none := by
  intro cfg p xs hraw hne hshape hflag
  have hnames : get_assignee_name_list_from_payload p = [] := by
    unfold get_assignee_name_list_from_payload
    rw [hraw]
    refine List.filterMap_eq_nil_iff.mpr ?_
    intro e he
    obtain ⟨fs, rfl, hdn, _⟩ := hshape e he
    simp [hdn]
  have hids : _get_assignee_id_list_from_payload p ≠ [] := by
    unfold _get_assignee_id_list_from_payload
    rw [hraw]
    intro hnil
    obtain ⟨e, he⟩ := List.exists_mem_of_ne_nil xs hne
    obtain ⟨fs, rfl, _, hid⟩ := hshape e he
    have hflt := List.filterMap_eq_nil_iff.mp hnil (Json.obj fs) he
    obtain ⟨v, hv⟩ := Option.isSome_iff_exists.mp hid
    rw [show (Json.obj fs) = Json.obj fs from rfl] at hflt
    simp [hv] at hflt
  have hrem : was_non_actor_sole_assignee_removed p = false :=
    was_removed_false_of_ids_ne_nil p hids
  refine ⟨hnames, hids, ?_⟩
  unfold handle_issue_updated
  rw [if_pos ⟨by rw [hnames]; rfl, hrem, hflag⟩]

/-- Witness for C4: a single assignee entry `(id user-42)` with no
display name, both flags false — the handler suppresses while the id
list is non-empty. -/
theorem c4_gate_one_uses_display_names_witness :
    get_assignee_name_list_from_payload c4WitnessPayload = [] ∧
    _get_assignee_id_list_from_payload c4WitnessPayload ≠ [] ∧
    handle_issue_updated c4WitnessCfg c4WitnessPayload = none :=
  c4_gate_one_uses_display_names c4WitnessCfg c4WitnessPayload
    [Json.obj [("id", Json.str "user-42")]] rfl (List.cons_ne_nil _ _)
    (by
      intro e he
      rw [List.mem_singleton] at he
      subst he
      exact ⟨_, rfl, rfl, rfl⟩)
    rfl

/-- C5: when no suppression gate fires, the update message is composed
from `data.name` (default `Untitled`), the actor display name (default
`Unknown user`), the raw changed field passed through the
`FIELD_CHANGED_RENAMING` table (default `Unknown field`, unmapped fields
unchanged), and the old/new values (default the literal `None`), around
the issue URL; and on the spec's scenario-B payload the produced message
is exactly the expected one, containing `**due date** updated by` and
the old/new dates verbatim. -/
theorem c5_update_message_composition :
    (∀ (cfg : Config) (p : Json),
      ¬(get_assignee_name_list_from_payload p = [] ∧
        was_non_actor_sole_assignee_removed p = false ∧
        cfg.send_notification_with_no_assignees = false) →
      ¬(is_actor_sole_assignee p = true ∧
        cfg.send_notification_when_actor_is_sole_assignee = false) →
      pyLower (pyStrip (pyOr (get_activity_value_from_payload p "field") ""))
        ∈ cfg.issue_updated_notification_fields →
      handle_issue_updated cfg p = some (
        "Task: **[" ++ pyOr (get_data_value_from_payload p "name") "Untitled" ++ "]("
          ++ generate_issue_url p cfg.workspace_url ++ ")** " ++ templateDash ++ " **"
          ++ (FIELD_CHANGED_RENAMING.lookup
                (pyOr (get_activity_value_from_payload p "field") "Unknown field")).getD
              (pyOr (get_activity_value_from_payload p "field") "Unknown field")
          ++ "** updated by **"
          ++ pyOr (get_actor_value_from_payload p "display_name") "Unknown user" ++ "**\n\n"
          ++ "- **New:** `" ++ pyOr (get_activity_value_from_payload p "new_value") "None" ++ "`\n"
          ++ "- **Old:** `" ++ pyOr (get_activity_value_from_payload p "old_value") "None" ++ "`\n")) ∧
    handle_issue_updated c5Cfg c5Payload = some c5ExpectedMessage ∧
    strContains c5ExpectedMessage "**due date** updated by" = true ∧
    strContains c5ExpectedMessage "`2024-02-01`" = true ∧
    strContains c5ExpectedMessage "`2024-01-01`" = true := by
  refine ⟨?_, by decide, by decide, by decide, by decide⟩
  intro cfg p h1 h2 h3
  have h1' : ¬((get_assignee_name_list_from_payload p).length = 0 ∧
      was_non_actor_sole_assignee_removed p = false ∧
      cfg.send_notification_with_no_assignees = false) := by
    intro hc
    exact h1 ⟨List.length_eq_zero.mp hc.1, hc.2.1, hc.2.2⟩
  unfold handle_issue_updated
  rw [if_neg h1', if_neg h2, if_neg (not_not_intro h3)]

/-- Witness for C5's gated composition at the scenario-B input. -/
theorem c5_update_message_composition_witness :
    handle_issue_updated c5Cfg c5Payload = some c5ExpectedMessage := by
  have h := c5_update_message_composition.1 c5Cfg c5Payload
    (by decide) (by decide) (by decide)
  rw [h]
  decide

set_option maxRecDepth 100000 in
/-- C1 (divergence witness): for an authenticated request whose payload
has an (event, action) pair outside the dispatch table — here
`(issue, deleted)` and `(project, created)` — the dispatcher does NOT
suppress: the `message` variable keeps its initial value `"test"` and
that string is handed to the chat-delivery collaborator, so the request
ends Delivered, not NoMessage. -/
theorem c1_unhandled_event_sends_test_message :
    webhook (fun _ => some [("event", Json.str "issue"), ("action", Json.str "deleted")])
        (fun _ _ => true) c1Cfg [] (some (hmacSha256Hex c1Cfg.secret []))
      = Outcome.delivered "room1" "test" ∧
    webhook (fun _ => some [("event", Json.str "project"), ("action", Json.str "created")])
        (fun _ _ => true) c1Cfg [] (some (hmacSha256Hex c1Cfg.secret []))
      = Outcome.delivered "room1" "test" :=
  ⟨by decide, by decide⟩
